import Mathlib

/-!
Verification of the dataforest_tt harvesting pipeline
(src/task_1/scraper.py, src/task_2/scraper.py) against its design
specification: a shallow embedding of the retry decorator, the pagination
loop, the sentinel-driven worker pools, the SQLite writer and the
process fan-out coordinator, together with theorems for the specified
properties.
-/

namespace Scraper

/-! ## Fetch Client: the `retry` decorator (task_1/scraper.py, lines 64-83)

The wrapper keeps a counter `attempts`, loops `while attempts < max_attempts`,
calls the wrapped function, returns its value on success, and on a caught
`requests.RequestException` logs one warning, increments `attempts`, sleeps
and retries; when the loop ends it logs one error and returns `None`.

The transport is modelled as a function from the current failure count to
the call's outcome: `none` for a raised `requests.RequestException`,
`some c` for returned page text.  The trace records the wrapper's returned
value, how many calls were made to the wrapped function, and how many retry
warnings were logged (one per caught failure, so the warnings count equals
the final value of the `attempts` counter). -/

structure RetryTrace (α : Type) where
  result : Option α
  calls : Nat
  warnings : Nat
  deriving DecidableEq

/-- The `while attempts < max_attempts` loop of `retry.decorator.wrapper`;
the fuel argument is `max_attempts - attempts`, so the loop exits (returning
`None`) exactly when the fuel runs out. -/
def retry_loop {α : Type} (transport : Nat → Option α) : Nat → Nat → RetryTrace α
  | attempts, 0 => ⟨none, attempts, attempts⟩
  | attempts, fuel + 1 =>
    match transport attempts with
    | some c => ⟨some c, attempts + 1, attempts⟩
    | none => retry_loop transport (attempts + 1) fuel

/-- One call of the decorated function (`fetch_page`): the wrapper starts
with `attempts = 0` and loop budget `max_attempts`. -/
def retry_run {α : Type} (transport : Nat → Option α) (maxAttempts : Nat) : RetryTrace α :=
  retry_loop transport 0 maxAttempts

/-! ## Discovery Stage: `get_products_from_subcategory`
(task_1/scraper.py, lines 121-167)

The loop builds `paginated_url` from the page counter (starting at 1),
fetches it, breaks when the fetch failed (`fetch_page` returned `None`) or
when the page contains no product cards, otherwise extends the product list
with the page's extracted cards, increments the page counter by 1 and
repeats.

The per-page fetch-and-extract is modelled as a function from the page
number to `none` (fetch failure) or `some cards` (the extracted product
cards of that page).  The `while True` loop is given explicit fuel; running
out of fuel yields `none` (the loop did not terminate within that many
iterations), while `some (products, fetches)` is normal termination with
the accumulated products and the number of page fetches performed. -/

def pagination_loop {α : Type} (fetch : Nat → Option (List α)) :
    Nat → Nat → List α → Nat → Option (List α × Nat)
  | 0, _, _, _ => none
  | fuel + 1, page, products, fetches =>
    match fetch page with
    | none => some (products, fetches + 1)
    | some cards =>
      if cards.isEmpty then some (products, fetches + 1)
      else pagination_loop fetch fuel (page + 1) (products ++ cards) (fetches + 1)

/-- The whole function: `products = []`, `page = 1`, loop until a failed or
empty page. -/
def get_products_from_subcategory {α : Type} (fetch : Nat → Option (List α))
    (fuel : Nat) : Option (List α × Nat) :=
  pagination_loop fetch fuel 1 [] 0

/-- The consecutive page numbers `start, start+1, ..., start+count-1`. -/
def page_range : Nat → Nat → List Nat
  | _, 0 => []
  | s, count + 1 => s :: page_range (s + 1) count

/-! ## Fan-out Coordinator: `ProcessManager._split_links`
(task_2/scraper.py, lines 48-54)

`chunk_size = math.ceil(len(book_links) / num_processes)` followed by the
list comprehension `[links[i*chunk_size : (i+1)*chunk_size] for i in
range(num_processes)]`.  A Python slice `l[a:b]` is `(l.drop a).take (b-a)`,
and `(i+1)*cs - i*cs = cs`. -/

/-- `math.ceil(a / b)` on naturals. -/
def ceil_div (a b : Nat) : Nat := (a + b - 1) / b

def split_links {α : Type} (links : List α) (num_processes : Nat) : List (List α) :=
  let chunk_size := ceil_div links.length num_processes
  (List.range num_processes).map (fun i => (links.drop (i * chunk_size)).take chunk_size)

/-! ## Fan-in: `ProcessManager.collect_data` (task_2/scraper.py, lines 66-78)
and `scraper_worker` (lines 101-107)

The shared manager queue carries either a worker's result list (a Batch) or
the `STOP_SIGNAL` end-marker.  `collect_data` loops `while stop_signals <
num_processes`, reads one message, counts it if it is the marker and
otherwise `extend`s the accumulator with it.  The queue's arrival-ordered
content is modelled as a list of messages; a blocking `get` on an empty
queue with markers still missing never returns, modelled as `none`. -/

inductive QMsg (α : Type) where
  | batch (b : List α)
  | stop
  deriving DecidableEq

def is_stop {α : Type} : QMsg α → Bool
  | .stop => true
  | .batch _ => false

def msg_batch {α : Type} : QMsg α → Option (List α)
  | .stop => none
  | .batch b => some b

/-- `collect_data` reading from the front of the arrival-ordered channel
content; the first argument is the number of end-markers still missing
(initially `num_processes`, since `stop_signals` starts at 0). -/
def collect_data {α : Type} : Nat → List (QMsg α) → Option (List α)
  | 0, _ => some []
  | _ + 1, [] => none
  | missing + 1, m :: rest =>
    match m with
    | .stop => collect_data missing rest
    | .batch b => (collect_data (missing + 1) rest).map (fun acc => b ++ acc)

/-! ## Fetch Client and exception classes (task_1/scraper.py, lines 64-83)

The wrapper's only handler is `except requests.RequestException`; an
exception of any other class is not caught and propagates out of the
wrapper at once.  A call outcome is therefore one of: a returned value, a
raised `requests.RequestException` (or subclass), or a raised exception of
some other class. -/

inductive CallOutcome (α : Type) where
  | ok (a : α)
  | raiseReq
  | raiseOther
  deriving DecidableEq

/-- What one call of the decorated function yields to the caller: either
the wrapper returns a value (`none` being the `return None` after
exhaustion) having made `calls` calls, or an uncaught exception escapes
after `calls` calls. -/
inductive RetryOutcome (α : Type) where
  | returns (v : Option α) (calls : Nat)
  | raises (calls : Nat)
  deriving DecidableEq

/-- Modelled from the `requests` library used by the source: a malformed
URL makes `requests.get` raise `requests.exceptions.MissingSchema` or
`requests.exceptions.InvalidURL`, and both classes derive from
`requests.exceptions.RequestException`, so the wrapper's
`except requests.RequestException` clause catches them. -/
def malformed_url_call {α : Type} : CallOutcome α := CallOutcome.raiseReq

def retry_loop_exc {α : Type} (transport : Nat → CallOutcome α) :
    Nat → Nat → RetryOutcome α
  | attempts, 0 => .returns none attempts
  | attempts, fuel + 1 =>
    match transport attempts with
    | .ok a => .returns (some a) (attempts + 1)
    | .raiseReq => retry_loop_exc transport (attempts + 1) fuel
    | .raiseOther => .raises (attempts + 1)

def retry_run_exc {α : Type} (transport : Nat → CallOutcome α) (maxAttempts : Nat) :
    RetryOutcome α :=
  retry_loop_exc transport 0 maxAttempts

/-! ## Detail Workers (task_1/scraper.py, lines 171-204;
task_2/scraper.py, lines 110-218)

task_1: `extract_price_data` fetches the product page; on a failed fetch
(`fetch_page` returned `None`) it returns the sentinel dict
`{"price_range": "N/A", "median_price": "N/A"}`; on a fetched page each
price field is the stripped element text when the element is present and
`"N/A"` otherwise.  `product_worker` merges that dict onto the product and
always forwards the result to `db_queue`.

task_2: `scrape_book` opens the page inside a `try`; every missing element
yields an explicit per-field sentinel; but any exception (e.g. a failed
`page.goto`) is caught by the trailing `except Exception`, which logs and
returns `None`, and `scrape_books` appends a result only `if book_data:`,
so such an item is dropped from the Batch. -/

/-- Python `str.strip()`: drop whitespace from both ends. -/
def py_strip (s : String) : String :=
  ⟨((s.data.dropWhile Char.isWhitespace).reverse.dropWhile Char.isWhitespace).reverse⟩

/-- The two price elements of a fetched product page, `none` when the
selector finds nothing, `some` its raw text otherwise. -/
structure ProductPage where
  price_range_elem : Option String
  median_value_elem : Option String
  deriving DecidableEq

structure PriceData where
  price_range : String
  median_price : String
  deriving DecidableEq

def extract_price_data (content : Option ProductPage) : PriceData :=
  match content with
  | none => { price_range := "N/A", median_price := "N/A" }
  | some page =>
    { price_range := match page.price_range_elem with
        | some s => py_strip s
        | none => "N/A"
      median_price := match page.median_value_elem with
        | some s => py_strip s
        | none => "N/A" }

/-- A WorkItem of task_1: the dict built by
`get_products_from_subcategory`. -/
structure WorkItem1 where
  name : String
  category : String
  description : String
  url : String
  deriving DecidableEq

/-- The Record after `product.update(price_data)`. -/
structure Record1 where
  name : String
  category : String
  description : String
  url : String
  price_range : String
  median_price : String
  deriving DecidableEq

/-- One iteration of `product_worker` on a dequeued product: fetch the
detail page, extract the price data, merge, and forward; the function is
total, so the item is always forwarded. -/
def product_worker_step (fetchProduct : String → Option ProductPage)
    (item : WorkItem1) : Record1 :=
  let pd := extract_price_data (fetchProduct item.url)
  { name := item.name, category := item.category, description := item.description,
    url := item.url, price_range := pd.price_range, median_price := pd.median_price }

/-- The elements `scrape_book` queries on a successfully opened book page;
each is `none` when the selector finds nothing (for `rating_class` also
when the class attribute is absent, both being falsy in the source). -/
structure BookPage where
  title_elem : Option String
  price_elem : Option String
  rating_class : Option String
  stock_elem : Option String
  image_elem : Option String
  description_elem : Option String
  category_elem : Option String
  table_rows : List (Option String × Option String)
  deriving DecidableEq

/-- Python dict assignment `d[k] = v` on an insertion-ordered dict. -/
def dict_set : List (String × String) → String → String → List (String × String)
  | [], k, v => [(k, v)]
  | (k', v') :: rest, k, v =>
    if k' = k then (k, v) :: rest else (k', v') :: dict_set rest k v

/-- The `product_info` table loop of `scrape_book`. -/
def build_product_info (rows : List (Option String × Option String)) :
    List (String × String) :=
  rows.foldl (fun d r => dict_set d (r.1.getD "Unknown") (r.2.getD "Unknown")) []

/-- `rating_class.replace("star-rating", "").strip() if rating_class else
"No rating"` with `rating_class` falsy when the element or its class
attribute is missing or the attribute is the empty string. -/
def parse_rating (rating_class : Option String) : String :=
  match rating_class with
  | none => "No rating"
  | some s => if s = "" then "No rating" else py_strip (s.replace "star-rating" "")

def BOOKS_BASE_URL : String := "https://books.toscrape.com/"

structure Record2 where
  title : String
  category : String
  price : String
  rating : String
  stock : String
  image_url : String
  description : String
  product_information : List (String × String)
  deriving DecidableEq

/-- `scrape_book`: `fetchBook url = none` models the exception path (a
failed `page.goto` or any other raised error), which the handler turns
into `return None`; a fetched page always yields a record, missing
elements falling back to their per-field sentinels.  `joinUrl` stands for
the external `urllib.parse.urljoin`. -/
def scrape_book (joinUrl : String → String → String)
    (fetchBook : String → Option BookPage) (url : String) : Option Record2 :=
  match fetchBook url with
  | none => none
  | some page => some
    { title := page.title_elem.getD "No title"
      category := page.category_elem.getD "No category"
      price := page.price_elem.getD "No price"
      rating := parse_rating page.rating_class
      stock := py_strip (page.stock_elem.getD "No stock info")
      image_url := joinUrl BOOKS_BASE_URL (page.image_elem.getD "No image")
      description := page.description_elem.getD "No description available"
      product_information := build_product_info page.table_rows }

/-- `scrape_books`: `if book_data: data.append(book_data)` over the chunk,
i.e. `None` results are filtered out. -/
def scrape_books (joinUrl : String → String → String)
    (fetchBook : String → Option BookPage) (links : List String) : List Record2 :=
  links.filterMap (scrape_book joinUrl fetchBook)

/-- A successfully opened page on which every queried element is
missing. -/
def all_missing_page : BookPage :=
  { title_elem := none, price_elem := none, rating_class := none, stock_elem := none,
    image_elem := none, description_elem := none, category_elem := none, table_rows := [] }

/-! ## Worker loops and cooperative shutdown (task_1/scraper.py,
lines 190-215 and 295-304)

`product_worker` and `db_worker` run `while True: item = queue.get(); if
item is STOP_SIGNAL: break; ...process and forward...`.  `main` calls
`product_queue.join()` (the queue is confirmed fully drained), only then
puts one `STOP_SIGNAL` (= `None`) per worker thread, and after joining the
workers repeats the same join-then-signal step for `db_queue` with its one
writer.

The queue's FIFO content is a list of `Option` items, `none` being
`STOP_SIGNAL`.  `pool_run` consumes the content in order with a given
number of live workers: a real item is processed by some worker and its
output forwarded, a sentinel makes exactly one worker exit its loop; the
pair returned is (forwarded outputs in order, workers still alive when the
content is exhausted) — a worker that is still alive on an exhausted queue
is blocked in `get`, not exited. -/

def pool_run {α β : Type} (process : α → β) : Nat → List (Option α) → List β × Nat
  | 0, _ => ([], 0)
  | w + 1, [] => ([], w + 1)
  | w + 1, none :: rest => pool_run process w rest
  | w + 1, some p :: rest =>
    let r := pool_run process (w + 1) rest
    (process p :: r.1, r.2)

/-- The queue content produced by `main`'s shutdown protocol: all enqueued
items (the queue was joined, so the sentinels sit after every item),
followed by exactly one `STOP_SIGNAL` per worker. -/
def main_shutdown_queue {α : Type} (items : List α) (workers : Nat) : List (Option α) :=
  items.map some ++ List.replicate workers none

/-! ## Storage: `init_db` and `save_to_db` (task_1/scraper.py, lines 44-60
and 219-243)

`init_db` creates table `products(id INTEGER PRIMARY KEY AUTOINCREMENT,
name TEXT, category TEXT, description TEXT, price_range TEXT,
median_price TEXT)` — the integer primary key is the only uniqueness
constraint; there is no UNIQUE constraint on the name or any natural key.

`save_to_db` opens its own connection, runs the INSERT + commit inside
`try`, catches `sqlite3.IntegrityError` (logged at info level, "Product
already exists"), catches every other `Exception` (logged at error level),
and closes the connection in `finally`; no handler re-raises. -/

/-- A row of the `products` table, `id` column apart. -/
structure ProductRow where
  name : String
  category : String
  description : String
  price_range : String
  median_price : String
  deriving DecidableEq

inductive DbExc where
  | integrityError
  | otherError
  deriving DecidableEq

/-- Observable state threaded through a `save_to_db` call: the current
call's connection handle, the committed table rows, and the log
counters. -/
structure WriterState where
  connOpen : Bool
  rows : List ProductRow
  infoLogs : Nat
  errorLogs : Nat
  deriving DecidableEq

/-- The `cursor.execute(INSERT ...)` + `conn.commit()` step, its outcome
(commit, duplicate-key `IntegrityError`, or any other storage fault)
supplied by the environment. -/
inductive DbWriteOutcome where
  | committed
  | duplicateKey
  | storageFault
  deriving DecidableEq

def execute_insert (outcome : DbWriteOutcome) (p : ProductRow) (s : WriterState) :
    WriterState × Option DbExc :=
  match outcome with
  | .committed => ({ s with rows := s.rows ++ [p] }, none)
  | .duplicateKey => (s, some .integrityError)
  | .storageFault => (s, some .otherError)

/-- `save_to_db`: connect, try the insert, handle `IntegrityError` with an
info log, handle any other exception with an error log, close the
connection in `finally`; the second component is the exception escaping to
the caller. -/
def save_to_db (outcome : DbWriteOutcome) (p : ProductRow) (s0 : WriterState) :
    WriterState × Option DbExc :=
  let s1 := { s0 with connOpen := true }
  let step := execute_insert outcome p s1
  match step.2 with
  | none => ({ step.1 with connOpen := false }, none)
  | some .integrityError =>
      ({ step.1 with infoLogs := step.1.infoLogs + 1, connOpen := false }, none)
  | some .otherError =>
      ({ step.1 with errorLogs := step.1.errorLogs + 1, connOpen := false }, none)

/-! ### The schema has no natural-key uniqueness (C5)

The INSERT of `save_to_db` raises `sqlite3.IntegrityError` only when a
constraint of the schema is violated.  Per `init_db` the only constraint
is the primary key on the autoincrement `id` column, which SQLite always
assigns fresh, so inserting the same product values twice succeeds and
creates a second row. -/

/-- The `products` table with its autoincrement id column. -/
structure ProductsTable where
  rows : List (Nat × ProductRow)
  nextId : Nat
  deriving DecidableEq

/-- The uniqueness check the schema of `init_db` induces: only the primary
key on `id` can collide (it never does, `nextId` being fresh); duplicate
name/category/... values violate nothing. -/
def pk_conflict (t : ProductsTable) (id : Nat) : Bool :=
  t.rows.any (fun r => r.1 == id)

/-- An INSERT against the schema of `init_db`. -/
def sqlite_insert (t : ProductsTable) (p : ProductRow) : ProductsTable × Option DbExc :=
  if pk_conflict t t.nextId then (t, some .integrityError)
  else ({ rows := t.rows ++ [(t.nextId, p)], nextId := t.nextId + 1 }, none)

/-- One `save_to_db` call against the real schema: on `IntegrityError` the
row is skipped (logged, not re-raised), otherwise the insert stands. -/
def save_to_db_on_table (t : ProductsTable) (p : ProductRow) : ProductsTable :=
  (sqlite_insert t p).1

/-- The Writer draining a Record list into storage in dequeue order. -/
def run_writer (t : ProductsTable) (records : List ProductRow) : ProductsTable :=
  records.foldl save_to_db_on_table t

/-- The table right after `init_db` (SQLite autoincrement ids start
at 1). -/
def empty_table : ProductsTable := { rows := [], nextId := 1 }

def sample_row : ProductRow :=
  { name := "Vanta", category := "DevOps", description := "d",
    price_range := "$10-$20", median_price := "$15" }

/-! ## Fan-out / fan-in round trip (task_2/scraper.py, lines 48-54,
66-78, 101-107)

`scraper_worker` runs `scrape_books` over its chunk and then puts exactly
two messages on the shared queue: its whole Batch, then the
`STOP_SIGNAL`. -/

def worker_msgs (joinUrl : String → String → String)
    (fetchBook : String → Option BookPage) (chunk : List String) : List (QMsg Record2) :=
  [QMsg.batch (scrape_books joinUrl fetchBook chunk), QMsg.stop]

/-! ## Theorems -/

theorem retry_loop_all_fail {α : Type} (t : Nat → Option α) :
    ∀ (fuel attempts : Nat), (∀ i, i < attempts + fuel → t i = none) →
      retry_loop t attempts fuel = ⟨none, attempts + fuel, attempts + fuel⟩ := by
  intro fuel
  induction fuel with
  | zero => intro attempts _; simp [retry_loop]
  | succ f ih =>
    intro attempts h
    have h0 : t attempts = none := h attempts (by omega)
    have h2 := ih (attempts + 1) (fun i hi => h i (by omega))
    have e : attempts + (f + 1) = (attempts + 1) + f := by omega
    rw [e]
    simp only [retry_loop, h0]
    exact h2

theorem retry_loop_succeeds {α : Type} (t : Nat → Option α) (c : α) :
    ∀ (k attempts fuel : Nat),
      (∀ i, attempts ≤ i → i < attempts + k → t i = none) →
      t (attempts + k) = some c → k < fuel →
      retry_loop t attempts fuel = ⟨some c, attempts + k + 1, attempts + k⟩ := by
  intro k
  induction k with
  | zero =>
    intro attempts fuel _ hs hf
    cases fuel with
    | zero => omega
    | succ f =>
      simp only [retry_loop]
      rw [show attempts + 0 = attempts by omega] at hs
      rw [hs]
      simp
  | succ k ih =>
    intro attempts fuel h hs hf
    cases fuel with
    | zero => omega
    | succ f =>
      have h0 : t attempts = none := h attempts (le_refl _) (by omega)
      have hs' : t (attempts + 1 + k) = some c := by
        rw [show attempts + 1 + k = attempts + (k + 1) by omega]; exact hs
      have h2 := ih (attempts + 1) f (fun i h1 h2 => h i (by omega) (by omega)) hs' (by omega)
      simp only [retry_loop, h0]
      rw [h2]
      congr 1 <;> omega

/-- C1: if the transport fails exactly `k` times and then succeeds with
content `c`, then for `k < maxAttempts` the fetch returns the fetched
content after `k + 1` calls with exactly `k` retry warnings observed, and
for `k ≥ maxAttempts` it returns `None` (Failure) after exactly
`maxAttempts` attempts, the exhaustion log reporting `maxAttempts`
attempts made. -/
theorem fetch_retry_spec {α : Type} (t : Nat → Option α) (k maxAttempts : Nat) (c : α)
    (hfail : ∀ i, i < k → t i = none) (hsucc : t k = some c) :
    (k < maxAttempts → retry_run t maxAttempts = ⟨some c, k + 1, k⟩)
  ∧ (maxAttempts ≤ k → retry_run t maxAttempts = ⟨none, maxAttempts, maxAttempts⟩) := by
  constructor
  · intro hlt
    have h := retry_loop_succeeds t c k 0 maxAttempts
      (fun i _ h2 => hfail i (by omega)) (by simpa using hsucc) hlt
    simpa [retry_run] using h
  · intro hle
    have h := retry_loop_all_fail t maxAttempts 0 (fun i hi => hfail i (by omega))
    simpa [retry_run] using h

theorem pagination_loop_spec {α : Type} (fetch : Nat → Option (List α)) :
    ∀ (count start : Nat) (products : List α) (fetches fuel : Nat),
      (∀ p, start ≤ p → p < start + count → fetch p ≠ none ∧ fetch p ≠ some []) →
      (fetch (start + count) = none ∨ fetch (start + count) = some []) →
      count < fuel →
      pagination_loop fetch fuel start products fetches
        = some (products ++ ((page_range start count).map (fun p => (fetch p).getD [])).flatten,
                fetches + count + 1) := by
  intro count
  induction count with
  | zero =>
    intro start products fetches fuel _ hend hf
    cases fuel with
    | zero => omega
    | succ f =>
      rw [show start + 0 = start by omega] at hend
      rcases hend with h | h <;> simp [pagination_loop, h, page_range]
  | succ count ih =>
    intro start products fetches fuel h hend hf
    cases fuel with
    | zero => omega
    | succ f =>
      obtain ⟨hne, hnee⟩ := h start (le_refl _) (by omega)
      obtain ⟨cards, hc⟩ : ∃ cards, fetch start = some cards := by
        cases he : fetch start with
        | none => exact absurd he hne
        | some cards => exact ⟨cards, rfl⟩
      have hcne : cards.isEmpty = false := by
        cases cards with
        | nil => exact absurd (by rw [hc]) hnee
        | cons a l => rfl
      have hend' : fetch (start + 1 + count) = none ∨ fetch (start + 1 + count) = some [] := by
        rw [show start + 1 + count = start + (count + 1) by omega]; exact hend
      have h2 := ih (start + 1) (products ++ cards) (fetches + 1) f
        (fun p h1 h2 => h p (by omega) (by omega)) hend' (by omega)
      simp only [pagination_loop, hc, hcne]
      rw [if_neg (by simp [hcne]), h2, page_range]
      simp [hc]
      omega

/-- C2: for a source whose subcategory pages `1..N` each yield at least one
product card while page `N+1` either fails to fetch or yields zero cards,
the pagination loop terminates (for every fuel bound of at least `N+1`
iterations), returns exactly the cards of pages `1..N` concatenated in page
order (pages numbered from 1, incremented by 1 each iteration), and
performs exactly `N+1` page fetches; the same conclusion covers
termination through a Failure fetch, since the failed page `N+1` also ends
the loop. -/
theorem discovery_pagination_spec {α : Type} (fetch : Nat → Option (List α)) (N fuel : Nat)
    (hpages : ∀ p, 1 ≤ p → p ≤ N → fetch p ≠ none ∧ fetch p ≠ some [])
    (hend : fetch (N + 1) = none ∨ fetch (N + 1) = some [])
    (hfuel : N + 1 ≤ fuel) :
    get_products_from_subcategory fetch fuel
      = some (((page_range 1 N).map (fun p => (fetch p).getD [])).flatten, N + 1) := by
  have h := pagination_loop_spec fetch N 1 [] 0 fuel
    (fun p h1 h2 => hpages p h1 (by omega)) (by rw [show 1 + N = N + 1 by omega]; exact hend)
    (by omega)
  simpa [get_products_from_subcategory] using h

theorem discovery_pagination_spec_witness :
    get_products_from_subcategory
        (fun p => if p ≤ 2 then some [p, p + 10] else some ([] : List Nat)) 3
      = some ([1, 11, 2, 12], 3) := by
  have h := discovery_pagination_spec
    (fun p => if p ≤ 2 then some [p, p + 10] else some ([] : List Nat)) 2 3
    (by decide) (Or.inr (by decide)) (by decide)
  exact h.trans (by decide)

theorem le_mul_ceil_div (a n : Nat) (h : 1 ≤ n) : a ≤ n * ceil_div a n := by
  have hdm := Nat.div_add_mod (a + n - 1) n
  have hlt : (a + n - 1) % n < n := Nat.mod_lt _ (by omega)
  show a ≤ n * ((a + n - 1) / n)
  generalize hq : n * ((a + n - 1) / n) = t at hdm ⊢
  omega

theorem flatten_chunks {α : Type} (cs : Nat) :
    ∀ (n : Nat) (l : List α), l.length ≤ n * cs →
      ((List.range n).map (fun i => (l.drop (i * cs)).take cs)).flatten = l := by
  intro n
  induction n with
  | zero =>
    intro l hl
    have : l = [] := List.eq_nil_of_length_eq_zero (by omega)
    simp [this]
  | succ n ih =>
    intro l hl
    rw [List.range_succ_eq_map, List.map_cons, List.map_map]
    have hmc : ((List.range n).map ((fun i => (l.drop (i * cs)).take cs) ∘ Nat.succ))
        = (List.range n).map (fun i => ((l.drop cs).drop (i * cs)).take cs) := by
      apply List.map_congr_left
      intro i _
      show (l.drop (Nat.succ i * cs)).take cs = ((l.drop cs).drop (i * cs)).take cs
      rw [List.drop_drop, Nat.add_comm, ← Nat.succ_mul]
    rw [hmc]
    have hlen : (l.drop cs).length ≤ n * cs := by
      rw [List.length_drop]
      have e : (n + 1) * cs = n * cs + cs := by rw [Nat.add_mul, Nat.one_mul]
      rw [e] at hl
      exact tsub_le_iff_right.mpr hl
    rw [List.flatten_cons, ih (l.drop cs) hlen]
    simp

/-- C3: for every item list and `workerCount ≥ 1`, `_split_links` produces
exactly `workerCount` contiguous chunks whose concatenation is the input
list (every item in exactly one chunk, exactly once), the `i`-th chunk
having length `min chunk_size (len - i * chunk_size)` for the
ceiling-division `chunk_size` (so full chunks first, then a possibly
shorter chunk, then empty ones); in particular 10 items over 3 workers
give chunk sizes `[4, 4, 2]`. -/
theorem fanout_split_spec {α : Type} (links : List α) (n : Nat) (h : 1 ≤ n) :
    (split_links links n).flatten = links
  ∧ (split_links links n).length = n
  ∧ (split_links links n).map List.length
      = (List.range n).map
          (fun i => min (ceil_div links.length n) (links.length - i * ceil_div links.length n))
  ∧ (split_links (List.range 10) 3).map List.length = [4, 4, 2] := by
  refine ⟨?_, ?_, ?_, by decide⟩
  · exact flatten_chunks (ceil_div links.length n) n links
      (le_mul_ceil_div links.length n h)
  · simp [split_links]
  · simp [split_links, List.map_map]

theorem fanout_split_spec_witness :
    ((split_links (List.range 10) 3).flatten = List.range 10
  ∧ (split_links (List.range 10) 3).length = 3
  ∧ (split_links (List.range 10) 3).map List.length
      = (List.range 3).map
          (fun i => min (ceil_div (List.range 10).length 3)
            ((List.range 10).length - i * ceil_div (List.range 10).length 3))
  ∧ (split_links (List.range 10) 3).map List.length = [4, 4, 2]) :=
  fanout_split_spec (List.range 10) 3 (by decide)

theorem collect_data_complete {α : Type} :
    ∀ (msgs : List (QMsg α)) (n : Nat),
      msgs.countP is_stop = n →
      (∀ k, k < msgs.length → (msgs.take k).countP is_stop < n) →
      collect_data n msgs = some ((msgs.filterMap msg_batch).flatten) := by
  intro msgs
  induction msgs with
  | nil =>
    intro n hc _
    rw [show n = 0 by simpa using hc.symm]
    simp [collect_data]
  | cons m rest ih =>
    intro n hc hp
    have hn : 1 ≤ n := by
      have := hp 0 (by simp)
      simpa using Nat.lt_of_le_of_lt (Nat.zero_le _) this
    obtain ⟨n', rfl⟩ : ∃ n', n = n' + 1 := ⟨n - 1, by omega⟩
    cases m with
    | stop =>
      have hc' : rest.countP is_stop = n' := by
        rw [List.countP_cons] at hc
        simp [is_stop] at hc
        omega
      have hp' : ∀ k, k < rest.length → (rest.take k).countP is_stop < n' := by
        intro k hk
        have := hp (k + 1) (by simpa using Nat.succ_lt_succ hk)
        rw [List.take_succ_cons, List.countP_cons] at this
        simp [is_stop] at this
        omega
      rw [show collect_data (n' + 1) (QMsg.stop :: rest) = collect_data n' rest from rfl]
      rw [ih n' hc' hp']
      simp [msg_batch]
    | batch b =>
      have hc' : rest.countP is_stop = n' + 1 := by
        rw [List.countP_cons] at hc
        simpa [is_stop] using hc
      have hp' : ∀ k, k < rest.length → (rest.take k).countP is_stop < n' + 1 := by
        intro k hk
        have := hp (k + 1) (by simpa using Nat.succ_lt_succ hk)
        rw [List.take_succ_cons, List.countP_cons] at this
        simpa [is_stop] using this
      rw [show collect_data (n' + 1) (QMsg.batch b :: rest)
            = (collect_data (n' + 1) rest).map (fun acc => b ++ acc) from rfl]
      rw [ih (n' + 1) hc' hp']
      simp [msg_batch]

/-- C4: if the channel content holds exactly `workerCount` end-markers and
every proper prefix holds fewer (each worker enqueues its Batch before its
marker, so the `workerCount`-th marker is the last message), then
`collect_data` terminates with `some` result equal to the concatenation of
all Batches in arrival order — every Record read from the channel appears
exactly once, none duplicated, none lost. -/
theorem fanin_collect_spec {α : Type} (msgs : List (QMsg α)) (workerCount : Nat)
    (hcount : msgs.countP is_stop = workerCount)
    (hlast : ∀ k, k < msgs.length → (msgs.take k).countP is_stop < workerCount) :
    collect_data workerCount msgs = some ((msgs.filterMap msg_batch).flatten) :=
  collect_data_complete msgs workerCount hcount hlast

theorem fanin_collect_spec_witness :
    collect_data 2 [QMsg.batch [1, 2], QMsg.stop, QMsg.batch [3], QMsg.stop]
      = some [1, 2, 3] := by
  have h := fanin_collect_spec [QMsg.batch [1, 2], QMsg.stop, QMsg.batch [3], QMsg.stop]
    2 (by decide) (by decide)
  exact h.trans (by decide)

theorem retry_loop_exc_req {α : Type} (t : Nat → CallOutcome α)
    (hreq : ∀ i, t i = CallOutcome.raiseReq) :
    ∀ (fuel attempts : Nat), retry_loop_exc t attempts fuel = .returns none (attempts + fuel) := by
  intro fuel
  induction fuel with
  | zero => intro attempts; simp [retry_loop_exc]
  | succ f ih =>
    intro attempts
    rw [show attempts + (f + 1) = (attempts + 1) + f by omega]
    simp only [retry_loop_exc, hreq attempts]
    exact ih (attempts + 1)

/-- C7 counterexample: a transport whose every call raises a malformed-URL
error (`MissingSchema`/`InvalidURL`, both `RequestException` subclasses) is
retried like a transient failure: with `maxAttempts = 3` the wrapper makes
3 attempts and returns `None`, instead of propagating the error after a
single attempt as the claim states. -/
theorem retry_malformed_url_cex :
    retry_run_exc (fun _ => (malformed_url_call : CallOutcome String)) 3
      = .returns none 3
  ∧ retry_run_exc (fun _ => (malformed_url_call : CallOutcome String)) 3
      ≠ .raises 1 := by
  constructor
  · decide
  · decide

/-- C7 amended: the Fetch Client retries only exceptions of class
`requests.RequestException`; an exception of any other class propagates
immediately out of the fetch call, after exactly one attempt and with no
retry.  Malformed-URL errors, however, are `RequestException` subclasses
in the `requests` library, so they are retried like transient transport
failures and the fetch returns `None` after `maxAttempts` attempts. -/
theorem retry_exception_class_spec {α : Type} (t : Nat → CallOutcome α)
    (maxAttempts otherMax : Nat) (h1 : 1 ≤ maxAttempts)
    (hother : t 0 = CallOutcome.raiseOther) :
    retry_run_exc t maxAttempts = .raises 1
  ∧ retry_run_exc (fun _ => (malformed_url_call : CallOutcome α)) otherMax
      = .returns none otherMax := by
  constructor
  · obtain ⟨f, rfl⟩ : ∃ f, maxAttempts = f + 1 := ⟨maxAttempts - 1, by omega⟩
    simp [retry_run_exc, retry_loop_exc, hother]
  · have h := retry_loop_exc_req (fun _ => (malformed_url_call : CallOutcome α))
      (fun _ => rfl) otherMax 0
    simpa [retry_run_exc] using h

theorem retry_exception_class_spec_witness :
    retry_run_exc (fun _ => (CallOutcome.raiseOther : CallOutcome String)) 2 = .raises 1
  ∧ retry_run_exc (fun _ => (malformed_url_call : CallOutcome String)) 4
      = .returns none 4 :=
  retry_exception_class_spec (fun _ => (CallOutcome.raiseOther : CallOutcome String))
    2 4 (by decide) rfl

/-- C6 counterexample: in the process-parallel variant a WorkItem whose
page fetch raises is dropped: with one link whose fetch fails, the worker's
Batch is empty — no Record with sentinel values is forwarded for it,
contradicting the claim that the item is never dropped. -/
theorem detail_worker_drop_cex :
    scrape_books (fun _ r => r) (fun _ => none) ["u"] = []
  ∧ (scrape_books (fun _ r => r) (fun _ => none) ["u"]).length ≠ ["u"].length := by
  constructor
  · rfl
  · decide

/-- C6 amended: in the thread-parallel variant a missing or failed detail
fetch still forwards a Record, with the sentinel `"N/A"` in each price
field; in the process-parallel variant a successfully opened page with
missing elements yields a Record with the explicit per-field sentinels
(`"No title"` etc.), but an item whose page fetch raises is dropped:
`scrape_book` returns `None` and `scrape_books` filters it out of the
Batch instead of forwarding a sentinel Record. -/
theorem detail_worker_sentinel_spec (fp : String → Option ProductPage) (item : WorkItem1)
    (joinUrl : String → String → String) (fetchBook : String → Option BookPage)
    (url : String) (links : List String) :
    (fp item.url = none →
      product_worker_step fp item
        = { name := item.name, category := item.category,
            description := item.description, url := item.url,
            price_range := "N/A", median_price := "N/A" })
  ∧ scrape_book joinUrl (fun _ => some all_missing_page) url
      = some { title := "No title", category := "No category", price := "No price",
               rating := "No rating", stock := "No stock info",
               image_url := joinUrl BOOKS_BASE_URL "No image",
               description := "No description available", product_information := [] }
  ∧ (fetchBook url = none →
      scrape_books joinUrl fetchBook (url :: links) = scrape_books joinUrl fetchBook links) := by
  refine ⟨?_, ?_, ?_⟩
  · intro h
    simp [product_worker_step, extract_price_data, h]
  · show some _ = some _
    rw [Option.some_inj]
    simp only [Record2.mk.injEq]
    refine ⟨rfl, rfl, rfl, rfl, ?_, rfl, rfl, rfl⟩
    show py_strip "No stock info" = "No stock info"
    decide
  · intro h
    simp [scrape_books, scrape_book, h]

theorem detail_worker_sentinel_spec_witness :
    product_worker_step (fun _ => none) ⟨"n", "c", "d", "u"⟩
      = { name := "n", category := "c", description := "d", url := "u",
          price_range := "N/A", median_price := "N/A" }
  ∧ scrape_book (fun _ r => r) (fun _ => some all_missing_page) "u"
      = some { title := "No title", category := "No category", price := "No price",
               rating := "No rating", stock := "No stock info",
               image_url := "No image",
               description := "No description available", product_information := [] }
  ∧ scrape_books (fun _ r => r) (fun _ => none) ("u" :: ["v"])
      = scrape_books (fun _ r => r) (fun _ => none) ["v"] := by
  have h := detail_worker_sentinel_spec (fun _ => none) ⟨"n", "c", "d", "u"⟩
    (fun _ r => r) (fun _ => none) "u" ["v"]
  exact ⟨h.1 rfl, h.2.1, h.2.2 rfl⟩

theorem pool_run_sentinels {α β : Type} (process : α → β) :
    ∀ w : Nat, pool_run process (w + 1) (List.replicate (w + 1) none) = ([], 0) := by
  intro w
  induction w with
  | zero => rfl
  | succ w ih =>
    show pool_run process (w + 1) (List.replicate (w + 1) none) = ([], 0)
    exact ih

theorem pool_run_items {α β : Type} (process : α → β) (w : Nat) :
    ∀ (items : List α) (tail : List (Option α)),
      pool_run process (w + 1) (items.map some ++ tail)
        = (items.map process ++ (pool_run process (w + 1) tail).1,
           (pool_run process (w + 1) tail).2) := by
  intro items
  induction items with
  | nil => intro tail; simp
  | cons p rest ih =>
    intro tail
    show pool_run process (w + 1) (some p :: (rest.map some ++ tail)) = _
    rw [show pool_run process (w + 1) (some p :: (rest.map some ++ tail))
          = (process p :: (pool_run process (w + 1) (rest.map some ++ tail)).1,
             (pool_run process (w + 1) (rest.map some ++ tail)).2) from rfl]
    rw [ih tail]
    simp

/-- C8: every worker loop (Detail Workers with any count `n ≥ 1`, and the
single Writer as the `n = 1` instance) exits only on dequeuing the
end-of-stream sentinel: with the join-then-signal shutdown queue — all
items followed by exactly one sentinel per worker — every enqueued item is
processed and forwarded (none lost) and all workers exit; with no sentinel
enqueued, all items are still processed but every worker remains alive,
blocked in `get`, never exiting on mere queue emptiness. -/
theorem sentinel_shutdown_spec {α β γ δ : Type} (process : α → β) (write : γ → δ)
    (items : List α) (records : List γ) (n : Nat) (h : 1 ≤ n) :
    pool_run process n (main_shutdown_queue items n) = (items.map process, 0)
  ∧ pool_run process n (items.map some) = (items.map process, n)
  ∧ pool_run write 1 (main_shutdown_queue records 1) = (records.map write, 0) := by
  obtain ⟨w, rfl⟩ : ∃ w, n = w + 1 := ⟨n - 1, by omega⟩
  refine ⟨?_, ?_, ?_⟩
  · rw [main_shutdown_queue, pool_run_items process w items (List.replicate (w + 1) none),
      pool_run_sentinels process w]
    simp
  · have h2 := pool_run_items process w items []
    rw [show pool_run process (w + 1) ([] : List (Option α)) = ([], w + 1) from rfl] at h2
    simpa using h2
  · rw [main_shutdown_queue, pool_run_items write 0 records (List.replicate 1 none),
      pool_run_sentinels write 0]
    simp

theorem sentinel_shutdown_spec_witness :
    pool_run (fun x => x + 1) 2 (main_shutdown_queue [1, 2] 2) = ([2, 3], 0)
  ∧ pool_run (fun x => x + 1) 2 ([1, 2].map some) = ([2, 3], 2)
  ∧ pool_run (fun x => x * 10) 1 (main_shutdown_queue [7] 1) = ([70], 0) := by
  have h := sentinel_shutdown_spec (fun x => x + 1) (fun x => x * 10) [1, 2] [7] 2 (by decide)
  exact ⟨h.1, h.2.1, h.2.2⟩

/-- C9: `save_to_db` never raises to its caller for any write outcome; on
commit the row is appended; a duplicate-key collision is logged at info
level, adds no row, and counts as success; any other storage fault is
logged at error level and the Record is dropped (no row added, no retry);
and the connection opened for the write is closed on every exit path,
the fault paths included. -/
theorem writer_fault_handling_spec (p : ProductRow) (s : WriterState) :
    (save_to_db .committed p s).2 = none
  ∧ (save_to_db .duplicateKey p s).2 = none
  ∧ (save_to_db .storageFault p s).2 = none
  ∧ (save_to_db .committed p s).1.connOpen = false
  ∧ (save_to_db .duplicateKey p s).1.connOpen = false
  ∧ (save_to_db .storageFault p s).1.connOpen = false
  ∧ (save_to_db .committed p s).1.rows = s.rows ++ [p]
  ∧ (save_to_db .duplicateKey p s).1.rows = s.rows
  ∧ (save_to_db .duplicateKey p s).1.infoLogs = s.infoLogs + 1
  ∧ (save_to_db .duplicateKey p s).1.errorLogs = s.errorLogs
  ∧ (save_to_db .storageFault p s).1.rows = s.rows
  ∧ (save_to_db .storageFault p s).1.errorLogs = s.errorLogs + 1
  ∧ (save_to_db .storageFault p s).1.infoLogs = s.infoLogs := by
  refine ⟨rfl, rfl, rfl, rfl, rfl, rfl, rfl, rfl, rfl, rfl, rfl, rfl, rfl⟩

/-- C5 evaluated on the code's schema at the failing input: running the
Writer a second time over the same one-Record set does NOT leave storage
unchanged — the second run's INSERT hits no uniqueness constraint (the
schema has none on the natural key), so a duplicate row is inserted and
the `IntegrityError`/`AlreadyExists` path is never taken. -/
theorem writer_not_idempotent :
    run_writer (run_writer empty_table [sample_row]) [sample_row]
      ≠ run_writer empty_table [sample_row]
  ∧ (run_writer (run_writer empty_table [sample_row]) [sample_row]).rows.length = 2
  ∧ (run_writer empty_table [sample_row]).rows.length = 1 := by
  refine ⟨by decide, by decide, by decide⟩

theorem sum_map_one {γ : Type} (l : List γ) : (l.map (fun _ => (1 : Nat))).sum = l.length := by
  induction l with
  | nil => rfl
  | cons a t ih => simp [ih]; omega

theorem flatten_singletons {γ δ : Type} (g : γ → List δ) (l : List γ) :
    (l.map (fun c => [g c])).flatten = l.map g := by
  induction l with
  | nil => rfl
  | cons a t ih => simp [ih]

/-- C10: for every link list and `workerCount ≥ 1` — the empty list and
`workerCount >` number of links included — `_split_links` spawns exactly
`workerCount` chunks, the workers collectively emit exactly `workerCount`
end-markers (each worker one Batch then one marker, an empty chunk giving
an empty Batch), and for any arrival order of the messages (any
interleaving, i.e. any permutation in which the last marker closes the
stream) the Coordinator's collection terminates with a result whose total
size equals the combined size of all the workers' Batches. -/
theorem fanout_roundtrip_spec (joinUrl : String → String → String)
    (fetchBook : String → Option BookPage) (links : List String) (n : Nat)
    (h : 1 ≤ n) (msgs : List (QMsg Record2))
    (harrival : msgs.Perm
      (((split_links links n).map (worker_msgs joinUrl fetchBook)).flatten))
    (hlast : ∀ k, k < msgs.length → (msgs.take k).countP is_stop < n) :
    (split_links links n).length = n
  ∧ (((split_links links n).map (worker_msgs joinUrl fetchBook)).flatten).countP is_stop = n
  ∧ collect_data n msgs = some ((msgs.filterMap msg_batch).flatten)
  ∧ ((msgs.filterMap msg_batch).flatten).length
      = ((split_links links n).map
          (fun c => (scrape_books joinUrl fetchBook c).length)).sum := by
  have hms : (((split_links links n).map (worker_msgs joinUrl fetchBook)).flatten).countP
      is_stop = n := by
    rw [List.countP_flatten, List.map_map]
    have he : ((split_links links n).map (List.countP is_stop ∘ worker_msgs joinUrl fetchBook))
        = (split_links links n).map (fun _ => (1 : Nat)) :=
      List.map_congr_left (fun c _ => rfl)
    rw [he, sum_map_one]
    simp [split_links]
  have hcnt : msgs.countP is_stop = n := by
    rw [harrival.countP_eq]
    exact hms
  refine ⟨by simp [split_links], hms, collect_data_complete msgs n hcnt hlast, ?_⟩
  have hpf : ((msgs.filterMap msg_batch).flatten).Perm
      (((((split_links links n).map (worker_msgs joinUrl fetchBook)).flatten).filterMap
        msg_batch).flatten) :=
    (harrival.filterMap msg_batch).flatten
  rw [hpf.length_eq, List.filterMap_flatten, List.map_map]
  have he2 : ((split_links links n).map
        (List.filterMap msg_batch ∘ worker_msgs joinUrl fetchBook))
      = (split_links links n).map (fun c => [scrape_books joinUrl fetchBook c]) :=
    List.map_congr_left (fun c _ => rfl)
  rw [he2, flatten_singletons, List.length_flatten, List.map_map]
  rfl

theorem fanout_roundtrip_spec_witness :
    (split_links ["a", "b", "c"] 2).length = 2
  ∧ (((split_links ["a", "b", "c"] 2).map
        (worker_msgs (fun _ r => r) (fun _ => none))).flatten).countP is_stop = 2
  ∧ collect_data 2 (((split_links ["a", "b", "c"] 2).map
        (worker_msgs (fun _ r => r) (fun _ => none))).flatten) = some []
  ∧ (((((split_links ["a", "b", "c"] 2).map
        (worker_msgs (fun _ r => r) (fun _ => none))).flatten).filterMap msg_batch).flatten).length
      = ((split_links ["a", "b", "c"] 2).map
        (fun c => (scrape_books (fun _ r => r) (fun _ => none) c).length)).sum := by
  have h := fanout_roundtrip_spec (fun _ r => r) (fun _ => none) ["a", "b", "c"] 2
    (by decide)
    (((split_links ["a", "b", "c"] 2).map (worker_msgs (fun _ r => r) (fun _ => none))).flatten)
    (List.Perm.refl _) (by decide)
  refine ⟨h.1, h.2.1, h.2.2.1.trans (by decide), h.2.2.2⟩

theorem fetch_retry_spec_witness :
    retry_run (fun i => if i < 2 then (none : Option String) else some "page") 5
      = ⟨some "page", 3, 2⟩ :=
  (fetch_retry_spec (fun i => if i < 2 then (none : Option String) else some "page")
      2 5 "page" (by decide) (by decide)).1 (by decide)

end Scraper
